import Mathlib

set_option maxRecDepth 8192

/-!
Shallow embedding of the vyhaa-data-vault dataroom application: profiles,
documents, access grants, audit logs, blob storage, and the server request
handlers (download-document, download-file-local, create-user,
upload-file-local, upload-document, delete-file-local), together with the
client-side operations (saveDocumentAccess, uploadFiles, signIn) and the
database trigger that promotes the first profile to admin.

External failure points (storage writes, catalog inserts, audit inserts,
auth verification) are modelled as explicit boolean outcome parameters;
generated values (timestamps, fresh ids) are explicit parameters.
-/

namespace Vault

/-- Role of a profile, from the user_role enum of the schema migration. -/
inductive Role
  | admin
  | user
deriving DecidableEq, Repr

/-- Row of the profiles table (identity-reference, email, name, role, activation). -/
structure Profile where
  userId : String
  email : String
  fullName : String
  role : Role
  isActive : Bool
deriving DecidableEq, Repr

/-- Row of the documents table (catalog metadata; bytes live in blob storage). -/
structure Document where
  id : String
  name : String
  description : Option String
  filePath : String
  fileSize : Nat
  mimeType : String
  tags : Option (List String)
  category : Option String
  subcategory : Option String
  uploadedBy : String
deriving DecidableEq, Repr

/-- Row of the document_access table: grant of one document to one user. -/
structure AccessGrant where
  documentId : String
  userId : String
  grantedBy : String
deriving DecidableEq, Repr

/-- Action tag of an audit row. -/
inductive AuditAction
  | upload
  | download
  | delete
deriving DecidableEq, Repr

/-- Row of the audit_logs table (requester ip/user-agent metadata elided). -/
structure AuditEntry where
  action : AuditAction
  documentId : String
  userId : String
deriving DecidableEq, Repr

/-- Stored blob: a path-addressed byte sequence (covers both the storage
bucket and the local uploads directory of the local-file variants). -/
structure StoredObject where
  path : String
  content : List Nat
deriving DecidableEq, Repr

/-- Identity-store account (auth.users), as far as the handlers observe it. -/
structure AuthUser where
  id : String
  email : String
deriving DecidableEq, Repr

/-- Whole persisted state: the four relational tables, the blob store and
the identity store. -/
structure DB where
  profiles : List Profile
  documents : List Document
  grants : List AccessGrant
  auditLogs : List AuditEntry
  storage : List StoredObject
  authUsers : List AuthUser
deriving DecidableEq, Repr

/-- Lookup of a profile by user id (select from profiles where user_id = uid). -/
def findProfile (db : DB) (uid : String) : Option Profile :=
  db.profiles.find? (fun p => p.userId == uid)

/-- Lookup of a document by id (select from documents where id = docId). -/
def findDocument (db : DB) (docId : String) : Option Document :=
  db.documents.find? (fun d => d.id == docId)

/-- Lookup of an access grant (select from document_access where
document_id = docId and user_id = uid). -/
def findGrant (db : DB) (docId uid : String) : Option AccessGrant :=
  db.grants.find? (fun g => g.documentId == docId && g.userId == uid)

/-- Lookup of a stored blob by path. -/
def findObject (db : DB) (path : String) : Option StoredObject :=
  db.storage.find? (fun o => o.path == path)

/-- Responses the handlers produce, reduced to the shapes the spec talks
about: raw file bytes with metadata headers, a JSON error with an HTTP
status, a JSON success body, or the created-user body of create-user. -/
inductive Response
  | fileBytes (content : List Nat) (mimeType : String) (name : String)
  | jsonError (status : Nat) (message : String)
  | jsonSuccess (status : Nat) (message : String)
  | userCreated (id : String) (email : String) (fullName : String)
deriving DecidableEq, Repr

/-- Whether a response carries file bytes. -/
def Response.isFile : Response → Bool
  | .fileBytes _ _ _ => true
  | _ => false

/-- Whether a response is a JSON error. -/
def Response.isError : Response → Bool
  | .jsonError _ _ => true
  | _ => false

/-- Handler of supabase/functions/download-document/index.ts. The caller is
the getUser result (`none` covers both a missing header and an invalid
token); every thrown error is caught and returned as a status-400 JSON
error. `auditOk` is the outcome of the fire-and-forget audit insert, whose
result object the code ignores. -/
def downloadDocument (db : DB) (user? : Option String) (documentId? : Option String)
    (auditOk : Bool) : Response × DB :=
  match user? with
  | none => (.jsonError 400 "Unauthorized", db)
  | some uid =>
    match documentId? with
    | none => (.jsonError 400 "Document ID is required", db)
    | some documentId =>
      match findDocument db documentId with
      | none => (.jsonError 400 "Document not found", db)
      | some document =>
        let profile? := findProfile db uid
        let isAdmin := match profile? with
          | some p => p.role == Role.admin
          | none => false
        let hasAccess := if isAdmin then true else (findGrant db documentId uid).isSome
        if !hasAccess then
          (.jsonError 400 "Insufficient permissions to download this document", db)
        else
          match findObject db document.filePath with
          | none => (.jsonError 400 "Failed to download file", db)
          | some obj =>
            let dbA := if auditOk then
                { db with auditLogs := db.auditLogs ++ [⟨.download, documentId, uid⟩] }
              else db
            (.fileBytes obj.content document.mimeType document.name, dbA)

/-- Handler of supabase/functions/download-file-local/index.ts. It verifies
authentication and document existence but performs no role or grant check;
the uploads-directory path remap of the source is elided as a bijective
path renaming, so the blob is looked up by the stored file_path. -/
def downloadFileLocal (db : DB) (user? : Option String) (documentId? : Option String)
    (auditOk : Bool) : Response × DB :=
  match user? with
  | none => (.jsonError 401 "Invalid token", db)
  | some uid =>
    match documentId? with
    | none => (.jsonError 400 "Document ID required", db)
    | some documentId =>
      match findDocument db documentId with
      | none => (.jsonError 404 "Document not found", db)
      | some document =>
        match findObject db document.filePath with
        | none => (.jsonError 404 "File not found on disk", db)
        | some obj =>
          let dbA := if auditOk then
              { db with auditLogs := db.auditLogs ++ [⟨.download, document.id, uid⟩] }
            else db
          (.fileBytes obj.content document.mimeType document.name, dbA)

/-- Handler of supabase/functions/create-user/index.ts. The handler never
reads the Authorization header, so the caller is carried as an unused
parameter to state that fact; `some` fields model present non-empty body
fields, `createOk` the outcome of the identity-store admin createUser call,
and the best-effort welcome email (whose failure the code swallows) has no
observable effect on state or response. -/
def createUser (db : DB) (caller : Option String) (email? fullName? : Option String)
    (newUserId : String) (createOk : Bool) : Response × DB :=
  match email?, fullName? with
  | some email, some fullName =>
    if (db.profiles.find? (fun p => p.email == email)).isSome then
      (.jsonError 400 "User with this email already exists", db)
    else if createOk then
      ( .userCreated newUserId email fullName,
        { db with authUsers := db.authUsers ++ [⟨newUserId, email⟩] } )
    else
      (.jsonError 400 "createUser failed", db)
  | _, _ => (.jsonError 400 "Email and full name are required", db)

/-- Client operation saveDocumentAccess of the user-management screen
(src/unnamed/part_000, lines 197-239): with no selected user it returns
without effect; otherwise it issues a delete of every existing grant of
the target user — the code awaits that delete but discards its result, so
a failed delete (`deleteOk = false`) is silent and leaves the old grants
in place — then, when the selected set is non-empty, inserts one grant
row per selected document tagged with the calling admin as granter.
`insertOk` is the outcome of that insert (its error is checked and
thrown); the returned flag is whether the operation reached its success
toast. -/
def saveDocumentAccess (db : DB) (authUser? selectedUser? : Option String)
    (selectedDocuments : List String) (deleteOk insertOk : Bool) : DB × Bool :=
  match selectedUser? with
  | none => (db, false)
  | some target =>
    match authUser? with
    | none => (db, false)
    | some uid =>
      let afterDelete : DB :=
        if deleteOk then
          { db with grants := db.grants.filter (fun g => !(g.userId == target)) }
        else db
      if selectedDocuments.length > 0 then
        if insertOk then
          ( { afterDelete with grants :=
                afterDelete.grants ++
                  selectedDocuments.map (fun d => ⟨d, target, uid⟩) },
            true )
        else (afterDelete, false)
      else (afterDelete, true)

/-- Trigger public.ensure_first_user_is_admin (latest migration): before a
profile row is inserted, if the profiles table is empty the row becomes an
active admin, otherwise it is made inactive (its role is left as supplied). -/
def ensureFirstUserIsAdmin (db : DB) (row : Profile) : Profile :=
  if db.profiles.length == 0 then
    { row with role := .admin, isActive := true }
  else
    { row with isActive := false }

/-- Trigger public.handle_new_user composed with ensure_first_user_is_admin:
profile creation as fired by the identity-store signup hook. The inserted
row carries role user (as handle_new_user supplies) and the is_active
column default true, then the before-insert trigger rewrites it. -/
def handleNewUser (db : DB) (userId email fullName : String) : DB :=
  let row : Profile := ⟨userId, email, fullName, .user, true⟩
  { db with profiles := db.profiles ++ [ensureFirstUserIsAdmin db row] }

/-- Body of the base64 upload request of upload-file-local. -/
structure UploadRequest where
  fileName : String
  fileContent : List Nat
  fileSize : Nat
  mimeType : String
  category : Option String
  subcategory : Option String
  description : Option String
  tags : Option (List String)
deriving DecidableEq, Repr

/-- Handler of supabase/functions/upload-file-local/index.ts (storage
variant): authenticate, require an admin profile, write the blob under
category/timestamp_fileName, insert the catalog row, on insert failure
best-effort remove the just-written blob, then fire-and-forget the audit
insert. `storageOk`, `dbOk`, `cleanupOk`, `auditOk` are the outcomes of
the respective external operations; `timestamp` and `newDocId` are the
generated values. No file-size check appears anywhere in this handler. -/
def uploadFileLocal (db : DB) (user? : Option String) (req : UploadRequest)
    (timestamp : Nat) (newDocId : String)
    (storageOk dbOk cleanupOk auditOk : Bool) : Response × DB :=
  match user? with
  | none => (.jsonError 401 "Invalid token", db)
  | some uid =>
    match findProfile db uid with
    | none => (.jsonError 403 "Admin access required", db)
    | some profile =>
      if !(profile.role == Role.admin) then
        (.jsonError 403 "Admin access required", db)
      else
        let uniqueFileName := toString timestamp ++ "_" ++ req.fileName
        let storagePath := (req.category.getD "uncategorized") ++ "/" ++ uniqueFileName
        if !storageOk then
          (.jsonError 500 "Failed to upload file to storage", db)
        else
          let dbS : DB := { db with storage := db.storage ++ [⟨storagePath, req.fileContent⟩] }
          if !dbOk then
            let dbC : DB :=
              if cleanupOk then
                { dbS with storage := dbS.storage.filter (fun o => !(o.path == storagePath)) }
              else dbS
            (.jsonError 500 "Failed to save document metadata", dbC)
          else
            let doc : Document :=
              ⟨newDocId, req.fileName, req.description, storagePath, req.fileSize,
               req.mimeType, req.tags, req.category, req.subcategory, uid⟩
            let dbD : DB := { dbS with documents := dbS.documents ++ [doc] }
            let dbA : DB :=
              if auditOk then
                { dbD with auditLogs := dbD.auditLogs ++ [⟨.upload, newDocId, uid⟩] }
              else dbD
            (.jsonSuccess 200 "File uploaded successfully", dbA)

/-- Multipart file of the upload-document handler. -/
structure FormFile where
  origName : String
  content : List Nat
  size : Nat
  mimeType : String
deriving DecidableEq, Repr

/-- Handler of the multipart upload-document function (third block of the
upload sources): authenticate, require admin, require file and name, write
the blob under documents/randomName, insert the catalog row, on insert
failure issue the compensating storage remove — the code awaits the
remove but discards its result, so a failed remove (`cleanupOk = false`)
is silent and leaves the orphaned blob — and rethrow. Every thrown error
is caught and returned with status 400. This handler performs no audit
insert on success. -/
def uploadDocument (db : DB) (user? : Option String)
    (file? : Option FormFile) (name? : Option String)
    (description : Option String) (tags : List String)
    (category subcategory : Option String)
    (randomName : String) (newDocId : String)
    (storageOk dbOk cleanupOk : Bool) : Response × DB :=
  match user? with
  | none => (.jsonError 400 "Unauthorized", db)
  | some uid =>
    let profile? := findProfile db uid
    let isAdmin := match profile? with
      | some p => p.role == Role.admin
      | none => false
    if !isAdmin then
      (.jsonError 400 "Insufficient permissions", db)
    else
      match file?, name? with
      | some file, some name =>
        let filePath := "documents/" ++ randomName
        if !storageOk then
          (.jsonError 400 "Failed to upload file", db)
        else
          let dbS : DB := { db with storage := db.storage ++ [⟨filePath, file.content⟩] }
          if !dbOk then
            let dbC : DB :=
              if cleanupOk then
                { dbS with storage := dbS.storage.filter (fun o => !(o.path == filePath)) }
              else dbS
            (.jsonError 400 "Failed to save document record", dbC)
          else
            let doc : Document :=
              ⟨newDocId, name, description, filePath, file.size, file.mimeType,
               (if tags.length > 0 then some tags else none), category, subcategory, uid⟩
            ( .jsonSuccess 200 "Document uploaded successfully",
              { dbS with documents := dbS.documents ++ [doc] } )
      | _, _ => (.jsonError 400 "File and name are required", db)

/-- File-size ceiling of the client-side upload loop: 50 MB. -/
def clientMaxFileSize : Nat := 50 * 1024 * 1024

/-- One iteration of the client uploadFiles loop (src/unnamed/part_003,
lines 108-199): skip the file when it exceeds the 50 MB ceiling (before
any storage write), otherwise write the blob to selectedFolder, insert the
catalog row (cleaning up the blob best-effort on failure), and
fire-and-forget an audit insert. The flag reports whether the file
counted as uploaded. -/
def processFile (db : DB) (sessionUser : String) (selectedFolder : String)
    (name : String) (content : List Nat) (size : Nat) (mimeType : String)
    (subcategory description : Option String) (tags : Option (List String))
    (timestamp : Nat) (newDocId : String)
    (storageOk dbOk cleanupOk auditOk : Bool) : DB × Bool :=
  if size > clientMaxFileSize then
    (db, false)
  else
    let storagePath := selectedFolder ++ "/" ++ toString timestamp ++ "_" ++ name
    if !storageOk then
      (db, false)
    else
      let dbS : DB := { db with storage := db.storage ++ [⟨storagePath, content⟩] }
      if !dbOk then
        let dbC : DB :=
          if cleanupOk then
            { dbS with storage := dbS.storage.filter (fun o => !(o.path == storagePath)) }
          else dbS
        (dbC, false)
      else
        let doc : Document :=
          ⟨newDocId, name, description, storagePath, size, mimeType,
           tags, some selectedFolder, subcategory, sessionUser⟩
        let dbD : DB := { dbS with documents := dbS.documents ++ [doc] }
        let dbA : DB :=
          if auditOk then
            { dbD with auditLogs := dbD.auditLogs ++ [⟨.upload, newDocId, sessionUser⟩] }
          else dbD
        (dbA, true)

/-- Handler of supabase/functions/delete-file-local/index.ts: authenticate,
require an admin profile, look the document up, best-effort remove the
physical file (a failed or missing-file removal is logged and ignored),
delete the catalog row (returning a 500 error when that fails), then
fire-and-forget the delete audit insert. -/
def deleteFileLocal (db : DB) (user? : Option String) (documentId? : Option String)
    (removeOk deleteOk auditOk : Bool) : Response × DB :=
  match user? with
  | none => (.jsonError 401 "Invalid token", db)
  | some uid =>
    match findProfile db uid with
    | none => (.jsonError 403 "Admin access required", db)
    | some profile =>
      if !(profile.role == Role.admin) then
        (.jsonError 403 "Admin access required", db)
      else
        match documentId? with
        | none => (.jsonError 400 "Document ID required", db)
        | some documentId =>
          match findDocument db documentId with
          | none => (.jsonError 404 "Document not found", db)
          | some document =>
            let dbF : DB :=
              if removeOk then
                { db with storage := db.storage.filter (fun o => !(o.path == document.filePath)) }
              else db
            if !deleteOk then
              (.jsonError 500 "Failed to delete document record", dbF)
            else
              let dbD : DB :=
                { dbF with documents := dbF.documents.filter (fun d => !(d.id == documentId)) }
              let dbA : DB :=
                if auditOk then
                  { dbD with auditLogs := dbD.auditLogs ++ [⟨.delete, document.id, uid⟩] }
                else dbD
              (.jsonSuccess 200 "Document deleted successfully", dbA)

/-- Outcome of the client signIn flow: whether a session remains
established once the call returns, and the returned error if any. -/
structure SignInResult where
  sessionActive : Bool
  error : Option String
deriving DecidableEq, Repr

/-- Error message returned for an inactive account. -/
def pendingApprovalMsg : String :=
  "Your account is pending admin approval. Please contact your administrator."

/-- Client signIn of the auth context (src/unnamed/part_005, lines
105-139): on credential failure no session exists and the auth error is
returned; on success the profile is fetched (a fetch error yields null,
modelled as a missing lookup) and, when the profile is present and
inactive, the user is signed out at once and the pending-approval error is
returned; otherwise the session stands and no error is returned. -/
def signIn (db : DB) (authOk : Bool) (uid : String) : SignInResult :=
  if !authOk then
    ⟨false, some "Invalid login credentials"⟩
  else
    match findProfile db uid with
    | some p =>
      if !p.isActive then ⟨false, some pendingApprovalMsg⟩
      else ⟨true, none⟩
    | none => ⟨true, none⟩

/-- Grant set of one user, as the access-management screen reads it back
(document ids of the document_access rows whose user_id matches). -/
def grantsOf (db : DB) (uid : String) : List String :=
  (db.grants.filter (fun g => g.userId == uid)).map (fun g => g.documentId)

/-- Filtering by a predicate after keeping only its complement yields nothing. -/
lemma filter_not_filter {α : Type} (p : α → Bool) (l : List α) :
    (l.filter (fun a => !(p a))).filter p = [] := by
  induction l with
  | nil => rfl
  | cons a t ih => cases h : p a <;> simp [List.filter_cons, h, ih]

/-- Reading back the grant rows just inserted for a user returns exactly the
inserted document ids. -/
lemma grantsOf_inserted (u gid : String) (S : List String) :
    ((S.map (fun d => (⟨d, u, gid⟩ : AccessGrant))).filter
        (fun g => g.userId == u)).map (fun g => g.documentId) = S := by
  induction S with
  | nil => rfl
  | cons d t ih => simp [List.filter_cons, ih]

/-- A find? for a predicate fails on a list filtered to its complement. -/
lemma find?_filter_not {α : Type} (p : α → Bool) (l : List α) :
    ((l.filter (fun a => !(p a))).find? p) = none := by
  induction l with
  | nil => rfl
  | cons a t ih => cases h : p a <;> simp [List.filter_cons, List.find?, h, ih]

/-- C4 counterexample: with a prior grant d0 for u1, a silently failing
grants-delete (the code discards the delete result) followed by a
successful insert of d1 reaches the success outcome while the read-back
grant set is the old grant together with the new one — not exactly the
given set. -/
theorem save_access_silent_delete_failure_cex :
    (saveDocumentAccess ⟨[], [], [⟨"d0", "u1", "a1"⟩], [], [], []⟩
        (some "a1") (some "u1") ["d1"] false true).2 = true ∧
    grantsOf (saveDocumentAccess ⟨[], [], [⟨"d0", "u1", "a1"⟩], [], [], []⟩
        (some "a1") (some "u1") ["d1"] false true).1 "u1" = ["d0", "d1"] := by
  decide

/-- C4 (amended): when the unchecked delete of the prior grants actually
succeeds, a successful saveDocumentAccess leaves u with exactly the given
set, regardless of the prior grants; when that delete fails silently and
the insert of a non-empty set succeeds, the operation still reports
success and u is left with the prior grants followed by the given set. -/
theorem saveDocumentAccess_grant_set_outcomes
    (db : DB) (adminId u : String) (S : List String) (insertOk : Bool) :
    ((saveDocumentAccess db (some adminId) (some u) S true insertOk).2 = true →
      grantsOf (saveDocumentAccess db (some adminId) (some u) S true insertOk).1 u = S) ∧
    (S.length > 0 → insertOk = true →
      (saveDocumentAccess db (some adminId) (some u) S false insertOk).2 = true ∧
      grantsOf (saveDocumentAccess db (some adminId) (some u) S false insertOk).1 u
        = grantsOf db u ++ S) := by
  constructor
  · intro hsucc
    unfold saveDocumentAccess at hsucc ⊢
    by_cases hS : S.length > 0
    · cases insertOk with
      | false => simp [hS] at hsucc
      | true =>
        simp only [hS, if_pos, if_true]
        unfold grantsOf
        simp only [List.filter_append, List.map_append]
        rw [filter_not_filter (fun g => g.userId == u) db.grants]
        simp [grantsOf_inserted]
    · have hnil : S = [] := List.length_eq_zero.mp (Nat.eq_zero_of_not_pos hS)
      subst hnil
      unfold grantsOf
      simp [filter_not_filter (fun g => g.userId == u) db.grants]
  · intro hS hins
    subst hins
    unfold saveDocumentAccess
    simp only [hS, if_pos, if_true, Bool.false_eq_true, if_false]
    refine ⟨?_, ?_⟩
    · first
      | rfl
      | trivial
    · unfold grantsOf
      simp [List.filter_append, List.map_append, grantsOf_inserted]

/-- Witness for C4 (amended) at a concrete state: with the delete
succeeding, the prior grant d0 is replaced by exactly the given set; with
the delete failing silently, d0 survives in front of the inserted d1. -/
theorem saveDocumentAccess_grant_set_outcomes_witness :
    grantsOf (saveDocumentAccess
        ⟨[], [], [⟨"d0", "u1", "a1"⟩], [], [], []⟩
        (some "a1") (some "u1") ["d1", "d2"] true true).1 "u1" = ["d1", "d2"] ∧
    grantsOf (saveDocumentAccess
        ⟨[], [], [⟨"d0", "u1", "a1"⟩], [], [], []⟩
        (some "a1") (some "u1") ["d1"] false true).1 "u1"
      = grantsOf ⟨[], [], [⟨"d0", "u1", "a1"⟩], [], [], []⟩ "u1" ++ ["d1"] :=
  ⟨(saveDocumentAccess_grant_set_outcomes
      ⟨[], [], [⟨"d0", "u1", "a1"⟩], [], [], []⟩ "a1" "u1" ["d1", "d2"] true).1 (by decide),
   ((saveDocumentAccess_grant_set_outcomes
      ⟨[], [], [⟨"d0", "u1", "a1"⟩], [], [], []⟩ "a1" "u1" ["d1"] true).2 (by decide) rfl).2⟩

/-- C5: the first profile created in an empty system is an active admin;
every profile created while one already exists is an inactive user. -/
theorem first_profile_admin_later_profiles_inactive_user
    (db : DB) (u e f : String) :
    (db.profiles = [] →
      handleNewUser db u e f = { db with profiles := [⟨u, e, f, Role.admin, true⟩] }) ∧
    (db.profiles ≠ [] →
      (handleNewUser db u e f).profiles = db.profiles ++ [⟨u, e, f, Role.user, false⟩]) := by
  constructor
  · intro h
    unfold handleNewUser ensureFirstUserIsAdmin
    simp [h]
  · intro h
    unfold handleNewUser ensureFirstUserIsAdmin
    have : db.profiles.length ≠ 0 := fun hl => h (List.length_eq_zero.mp hl)
    simp [this]

/-- Witness for C5: in the empty system the created profile is an active
admin; in a one-profile system the created profile is an inactive user. -/
theorem first_profile_admin_later_profiles_inactive_user_witness :
    handleNewUser ⟨[], [], [], [], [], []⟩ "u1" "e" "n"
        = ⟨[⟨"u1", "e", "n", Role.admin, true⟩], [], [], [], [], []⟩ ∧
    (handleNewUser ⟨[⟨"u1", "e", "n", Role.admin, true⟩], [], [], [], [], []⟩ "u2" "e2" "n2").profiles
        = [⟨"u1", "e", "n", Role.admin, true⟩, ⟨"u2", "e2", "n2", Role.user, false⟩] :=
  ⟨(first_profile_admin_later_profiles_inactive_user ⟨[], [], [], [], [], []⟩ "u1" "e" "n").1 rfl,
   (first_profile_admin_later_profiles_inactive_user
      ⟨[⟨"u1", "e", "n", Role.admin, true⟩], [], [], [], [], []⟩ "u2" "e2" "n2").2 (by decide)⟩

/-- C9: the response of each handler is independent of the audit-insert
outcome — a failed audit append never changes the primary result of a
download, upload, or delete, and is not surfaced to the caller. -/
theorem audit_failure_never_changes_response
    (db : DB) (user? documentId? : Option String) (req : UploadRequest)
    (timestamp : Nat) (newDocId : String)
    (storageOk dbOk cleanupOk removeOk : Bool) (aud₁ aud₂ : Bool) :
    (downloadDocument db user? documentId? aud₁).1
        = (downloadDocument db user? documentId? aud₂).1 ∧
    (downloadFileLocal db user? documentId? aud₁).1
        = (downloadFileLocal db user? documentId? aud₂).1 ∧
    (uploadFileLocal db user? req timestamp newDocId storageOk dbOk cleanupOk aud₁).1
        = (uploadFileLocal db user? req timestamp newDocId storageOk dbOk cleanupOk aud₂).1 ∧
    (deleteFileLocal db user? documentId? removeOk dbOk aud₁).1
        = (deleteFileLocal db user? documentId? removeOk dbOk aud₂).1 := by
  refine ⟨?_, ?_, ?_, ?_⟩
  · cases user? with
    | none => rfl
    | some uid =>
      cases documentId? with
      | none => rfl
      | some documentId =>
        simp only [downloadDocument]
        repeat first
          | rfl
          | (split <;> try rfl)
  · cases user? with
    | none => rfl
    | some uid =>
      cases documentId? with
      | none => rfl
      | some documentId =>
        simp only [downloadFileLocal]
        repeat first
          | rfl
          | (split <;> try rfl)
  · cases user? with
    | none => rfl
    | some uid =>
      simp only [uploadFileLocal]
      repeat first
        | rfl
        | (split <;> try rfl)
  · cases user? with
    | none => rfl
    | some uid =>
      simp only [deleteFileLocal]
      repeat first
        | rfl
        | (split <;> try rfl)

/-- C10: when credentials verify but the fetched profile is inactive,
signIn signs the user out (no session remains) and returns the
pending-admin-approval error instead of success. -/
theorem inactive_profile_cannot_hold_session
    (db : DB) (uid : String) (p : Profile)
    (hp : findProfile db uid = some p) (hinact : p.isActive = false) :
    signIn db true uid = ⟨false, some pendingApprovalMsg⟩ := by
  unfold signIn
  simp [hp, hinact]

/-- Witness for C10: a concrete inactive profile yields a cleared session
and the pending-approval error. -/
theorem inactive_profile_cannot_hold_session_witness :
    signIn ⟨[⟨"u1", "e", "n", Role.user, false⟩], [], [], [], [], []⟩ true "u1"
      = ⟨false, some pendingApprovalMsg⟩ :=
  inactive_profile_cannot_hold_session
    ⟨[⟨"u1", "e", "n", Role.user, false⟩], [], [], [], [], []⟩ "u1"
    ⟨"u1", "e", "n", Role.user, false⟩ (by decide) rfl

/-- C7: in each upload implementation, when the catalog insert fails after
the blob write, the upload returns an error, the catalog is unchanged, and
the compensating blob delete is attempted — when that delete succeeds,
the just-written blob is gone; its own failure is not guaranteed against
(the result of the remove is discarded everywhere, so a second failure
leaves an orphaned blob). -/
theorem catalog_insert_failure_compensated
    (db : DB) (uid : String) (prof : Profile) (req : UploadRequest)
    (timestamp : Nat) (newDocId : String) (cleanupOk auditOk : Bool)
    (file : FormFile) (name : String) (description : Option String)
    (tags : List String) (category subcategory : Option String) (randomName : String)
    (folder fname mime : String) (content : List Nat) (size : Nat)
    (sub2 desc2 : Option String) (tags2 : Option (List String))
    (hp : findProfile db uid = some prof) (hadmin : prof.role = Role.admin)
    (hsize : ¬ size > clientMaxFileSize) :
    ((uploadFileLocal db (some uid) req timestamp newDocId true false cleanupOk auditOk).1.isError = true ∧
     (uploadFileLocal db (some uid) req timestamp newDocId true false cleanupOk auditOk).2.documents
        = db.documents ∧
     (cleanupOk = true →
        findObject (uploadFileLocal db (some uid) req timestamp newDocId true false cleanupOk auditOk).2
          ((req.category.getD "uncategorized") ++ "/" ++ (toString timestamp ++ "_" ++ req.fileName))
          = none)) ∧
    ((uploadDocument db (some uid) (some file) (some name) description tags category
        subcategory randomName newDocId true false cleanupOk).1.isError = true ∧
     (uploadDocument db (some uid) (some file) (some name) description tags category
        subcategory randomName newDocId true false cleanupOk).2.documents = db.documents ∧
     (cleanupOk = true →
        findObject (uploadDocument db (some uid) (some file) (some name) description tags
            category subcategory randomName newDocId true false cleanupOk).2
          ("documents/" ++ randomName) = none)) ∧
    ((processFile db uid folder fname content size mime sub2 desc2 tags2
        timestamp newDocId true false cleanupOk auditOk).2 = false ∧
     (processFile db uid folder fname content size mime sub2 desc2 tags2
        timestamp newDocId true false cleanupOk auditOk).1.documents = db.documents ∧
     (cleanupOk = true →
        findObject (processFile db uid folder fname content size mime sub2 desc2 tags2
            timestamp newDocId true false cleanupOk auditOk).1
          (folder ++ "/" ++ toString timestamp ++ "_" ++ fname) = none)) := by
  refine ⟨⟨?_, ?_, ?_⟩, ⟨?_, ?_, ?_⟩, ⟨?_, ?_, ?_⟩⟩
  · simp [uploadFileLocal, hp, hadmin, Response.isError]
  · cases cleanupOk <;> simp [uploadFileLocal, hp, hadmin]
  · intro hc
    subst hc
    simp [uploadFileLocal, hp, hadmin, findObject, find?_filter_not]
  · cases cleanupOk <;> simp [uploadDocument, hp, hadmin, Response.isError]
  · cases cleanupOk <;> simp [uploadDocument, hp, hadmin]
  · intro hc
    subst hc
    simp [uploadDocument, hp, hadmin, findObject, find?_filter_not]
  · simp [processFile, hsize]
  · cases cleanupOk <;> simp [processFile, hsize]
  · intro hc
    subst hc
    simp [processFile, hsize, findObject, find?_filter_not]

/-- Witness for C7 at a concrete state: the admin uploads, the catalog
insert fails, cleanup succeeds, and catalog and blob store are clean. -/
theorem catalog_insert_failure_compensated_witness :
    ((uploadFileLocal ⟨[⟨"a1", "a", "A", Role.admin, true⟩], [], [], [], [], []⟩
        (some "a1") ⟨"f.txt", [7], 1, "text/plain", none, none, none, none⟩
        5 "nd1" true false true true).2.documents = [] ∧
     findObject (uploadFileLocal ⟨[⟨"a1", "a", "A", Role.admin, true⟩], [], [], [], [], []⟩
        (some "a1") ⟨"f.txt", [7], 1, "text/plain", none, none, none, none⟩
        5 "nd1" true false true true).2 "uncategorized/5_f.txt" = none) := by
  have h := catalog_insert_failure_compensated
    ⟨[⟨"a1", "a", "A", Role.admin, true⟩], [], [], [], [], []⟩ "a1"
    ⟨"a1", "a", "A", Role.admin, true⟩
    ⟨"f.txt", [7], 1, "text/plain", none, none, none, none⟩ 5 "nd1" true true
    ⟨"g", [1], 1, "m"⟩ "g" none [] none none "r" "fold" "g" "m" [1] 1 none none none
    (by decide) rfl (by decide)
  exact ⟨h.1.2.1, h.1.2.2 rfl⟩

/-- C8: deletion requires an admin subject (any non-admin profile is
rejected with no state change); for an admin and an existing document the
blob removal is best-effort (its failure or a missing blob does not change
the outcome), the catalog row is removed, a delete audit entry is appended
on success, and a failing catalog delete yields an error response. -/
theorem delete_requires_admin_and_audits
    (db : DB) (uid docId : String) (prof : Profile) (document : Document)
    (removeOk deleteOk auditOk : Bool)
    (hp : findProfile db uid = some prof) :
    (prof.role ≠ Role.admin →
      deleteFileLocal db (some uid) (some docId) removeOk deleteOk auditOk
        = (.jsonError 403 "Admin access required", db)) ∧
    (prof.role = Role.admin → findDocument db docId = some document →
      ((deleteOk = false →
          (deleteFileLocal db (some uid) (some docId) removeOk deleteOk auditOk).1.isError = true) ∧
       (deleteOk = true →
          (deleteFileLocal db (some uid) (some docId) removeOk deleteOk auditOk).1
              = .jsonSuccess 200 "Document deleted successfully" ∧
          findDocument (deleteFileLocal db (some uid) (some docId) removeOk deleteOk auditOk).2 docId
              = none ∧
          (auditOk = true →
            (deleteFileLocal db (some uid) (some docId) removeOk deleteOk auditOk).2.auditLogs
              = db.auditLogs ++ [⟨AuditAction.delete, document.id, uid⟩])))) := by
  constructor
  · intro hrole
    have : (prof.role == Role.admin) = false := by
      cases h : prof.role == Role.admin
      · rfl
      · exact absurd (eq_of_beq h) hrole
    simp [deleteFileLocal, hp, this]
  · intro hrole hd
    constructor
    · intro hdel
      subst hdel
      simp [deleteFileLocal, hp, hrole, hd, Response.isError]
    · intro hdel
      subst hdel
      refine ⟨?_, ?_, ?_⟩
      · simp [deleteFileLocal, hp, hrole, hd]
      · cases auditOk <;> cases removeOk <;>
          · simp [deleteFileLocal, hp, hrole, hd]
            first
            | rfl
            | exact find?_filter_not _ _
      · intro haud
        subst haud
        cases removeOk <;> simp [deleteFileLocal, hp, hrole, hd]

/-- Witness for C8 at a concrete state: a non-admin is rejected unchanged,
and an admin delete succeeds, removes the catalog row and appends one
delete audit entry. -/
theorem delete_requires_admin_and_audits_witness :
    deleteFileLocal
        ⟨[⟨"u1", "u", "U", Role.user, true⟩,  ⟨"a1", "a", "A", Role.admin, true⟩],
         [⟨"d1", "doc", none, "p/d1", 1, "m", none, none, none, "a1"⟩], [], [],
         [⟨"p/d1", [9]⟩], []⟩
        (some "u1") (some "d1") true true true
      = (.jsonError 403 "Admin access required",
         ⟨[⟨"u1", "u", "U", Role.user, true⟩,  ⟨"a1", "a", "A", Role.admin, true⟩],
          [⟨"d1", "doc", none, "p/d1", 1, "m", none, none, none, "a1"⟩], [], [],
          [⟨"p/d1", [9]⟩], []⟩) ∧
    (deleteFileLocal
        ⟨[⟨"u1", "u", "U", Role.user, true⟩,  ⟨"a1", "a", "A", Role.admin, true⟩],
         [⟨"d1", "doc", none, "p/d1", 1, "m", none, none, none, "a1"⟩], [], [],
         [⟨"p/d1", [9]⟩], []⟩
        (some "a1") (some "d1") true true true).2.auditLogs
      = [⟨AuditAction.delete, "d1", "a1"⟩] := by
  constructor
  · exact (delete_requires_admin_and_audits _ "u1" "d1"
      ⟨"u1", "u", "U", Role.user, true⟩
      ⟨"d1", "doc", none, "p/d1", 1, "m", none, none, none, "a1"⟩
      true true true (by decide)).1 (by decide)
  · exact (((delete_requires_admin_and_audits _ "a1" "d1"
      ⟨"a1", "a", "A", Role.admin, true⟩
      ⟨"d1", "doc", none, "p/d1", 1, "m", none, none, none, "a1"⟩
      true true true (by decide)).2 rfl (by decide)).2 rfl).2.2 rfl

/-- C1 counterexample: in a concrete state the subject u1 is a non-admin
with no grant for document d1, yet the download-file-local path returns
the file bytes instead of a Forbidden denial. -/
theorem download_file_local_bypasses_grants_cex :
    (findProfile ⟨[⟨"u1", "u", "U", Role.user, true⟩],
        [⟨"d1", "doc1", none, "p/d1", 3, "text/plain", none, none, none, "a1"⟩],
        [], [], [⟨"p/d1", [1, 2, 3]⟩], []⟩ "u1").map Profile.role = some Role.user ∧
    findGrant ⟨[⟨"u1", "u", "U", Role.user, true⟩],
        [⟨"d1", "doc1", none, "p/d1", 3, "text/plain", none, none, none, "a1"⟩],
        [], [], [⟨"p/d1", [1, 2, 3]⟩], []⟩ "d1" "u1" = none ∧
    (downloadFileLocal ⟨[⟨"u1", "u", "U", Role.user, true⟩],
        [⟨"d1", "doc1", none, "p/d1", 3, "text/plain", none, none, none, "a1"⟩],
        [], [], [⟨"p/d1", [1, 2, 3]⟩], []⟩ (some "u1") (some "d1") true).1
      = Response.fileBytes [1, 2, 3] "text/plain" "doc1" := by
  decide

/-- C1 (amended): the download-document handler returns file bytes exactly
when the blob exists and the subject is an admin or holds a grant, and
denies with a JSON error and no state change otherwise; the
download-file-local handler returns the bytes of any existing document
with an existing blob to any authenticated subject, with no role or grant
check. -/
theorem download_permission_paths
    (db : DB) (uid docId : String) (document : Document) (aud : Bool)
    (hd : findDocument db docId = some document) :
    ((downloadDocument db (some uid) (some docId) aud).1.isFile = true ↔
      ((findObject db document.filePath).isSome = true ∧
        ((∃ p, findProfile db uid = some p ∧ p.role = Role.admin) ∨
          (findGrant db docId uid).isSome = true))) ∧
    (¬((∃ p, findProfile db uid = some p ∧ p.role = Role.admin) ∨
          (findGrant db docId uid).isSome = true) →
      downloadDocument db (some uid) (some docId) aud
        = (.jsonError 400 "Insufficient permissions to download this document", db)) ∧
    (∀ obj, findObject db document.filePath = some obj →
      (downloadFileLocal db (some uid) (some docId) aud).1
        = Response.fileBytes obj.content document.mimeType document.name) := by
  refine ⟨?_, ?_, ?_⟩
  · cases hp : findProfile db uid with
    | none =>
      cases hg : findGrant db docId uid with
      | none =>
        cases ho : findObject db document.filePath <;>
          simp [downloadDocument, hd, hp, hg, ho, Response.isFile]
      | some g =>
        cases ho : findObject db document.filePath <;>
          simp [downloadDocument, hd, hp, hg, ho, Response.isFile]
    | some p =>
      cases hrole : p.role with
      | admin =>
        cases ho : findObject db document.filePath <;>
          simp [downloadDocument, hd, hp, hrole, ho, Response.isFile]
      | user =>
        cases hg : findGrant db docId uid with
        | none =>
          cases ho : findObject db document.filePath <;>
            simp [downloadDocument, hd, hp, hrole, hg, ho, Response.isFile]
        | some g =>
          cases ho : findObject db document.filePath <;>
            simp [downloadDocument, hd, hp, hrole, hg, ho, Response.isFile]
  · intro hno
    cases hp : findProfile db uid with
    | none =>
      cases hg : findGrant db docId uid with
      | none => simp [downloadDocument, hd, hp, hg]
      | some g => exact absurd (Or.inr (by simp [hg])) hno
    | some p =>
      cases hrole : p.role with
      | admin => exact absurd (Or.inl ⟨p, hp, hrole⟩) hno
      | user =>
        cases hg : findGrant db docId uid with
        | none => simp [downloadDocument, hd, hp, hrole, hg]
        | some g => exact absurd (Or.inr (by simp [hg])) hno
  · intro obj ho
    simp [downloadFileLocal, hd, ho]

/-- Witness for C1 (amended): for a concrete state with a granted document
the download-file-local path hands the concrete bytes back. -/
theorem download_permission_paths_witness :
    (downloadFileLocal ⟨[⟨"u2", "u", "U", Role.user, true⟩],
        [⟨"d2", "doc2", none, "p/d2", 2, "text/plain", none, none, none, "a1"⟩],
        [⟨"d2", "u2", "a1"⟩], [], [⟨"p/d2", [4, 5]⟩], []⟩ (some "u2") (some "d2") true).1
      = Response.fileBytes [4, 5] "text/plain" "doc2" :=
  (download_permission_paths ⟨[⟨"u2", "u", "U", Role.user, true⟩],
      [⟨"d2", "doc2", none, "p/d2", 2, "text/plain", none, none, none, "a1"⟩],
      [⟨"d2", "u2", "a1"⟩], [], [⟨"p/d2", [4, 5]⟩], []⟩ "u2" "d2"
      ⟨"d2", "doc2", none, "p/d2", 2, "text/plain", none, none, none, "a1"⟩ true
      (by decide)).2.2 ⟨"p/d2", [4, 5]⟩ (by decide)

/-- C2 counterexample: an unauthenticated request (the handler never reads
the Authorization header, modelled as caller none) with a fresh email
creates the identity and returns the created-user body, instead of being
rejected. -/
theorem create_user_unauthenticated_cex :
    (createUser ⟨[⟨"a1", "a@x", "A", Role.admin, true⟩], [], [], [], [], []⟩ none
        (some "new@x") (some "New User") "u9" true).1
      = Response.userCreated "u9" "new@x" "New User" ∧
    (createUser ⟨[⟨"a1", "a@x", "A", Role.admin, true⟩], [], [], [], [], []⟩ none
        (some "new@x") (some "New User") "u9" true).2.authUsers
      = [⟨"u9", "new@x"⟩] := by
  decide

/-- C2 (amended): the create-user handler performs no caller
authentication or role check — its result is independent of the caller —
and it rejects exactly a missing field or a duplicate-email profile, while
any caller with a fresh email gets the identity created. -/
theorem create_user_ignores_caller
    (db : DB) (caller₁ caller₂ : Option String) (email? fullName? : Option String)
    (newUserId : String) (createOk : Bool) :
    createUser db caller₁ email? fullName? newUserId createOk
      = createUser db caller₂ email? fullName? newUserId createOk ∧
    (∀ e f, email? = some e → fullName? = some f →
      (((db.profiles.find? (fun p => p.email == e)).isSome = true →
          createUser db caller₁ email? fullName? newUserId createOk
            = (.jsonError 400 "User with this email already exists", db)) ∧
       ((db.profiles.find? (fun p => p.email == e)).isSome = false → createOk = true →
          createUser db caller₁ email? fullName? newUserId createOk
            = (.userCreated newUserId e f,
               { db with authUsers := db.authUsers ++ [⟨newUserId, e⟩] })))) := by
  refine ⟨rfl, ?_⟩
  intro e f he hf
  subst he
  subst hf
  constructor
  · intro hdup
    simp [createUser, hdup]
  · intro hdup hok
    subst hok
    simp [createUser, hdup]

/-- Witness for C2 (amended): at a concrete state, a fresh email yields a
created identity and a duplicate email yields the duplicate error. -/
theorem create_user_ignores_caller_witness :
    createUser ⟨[⟨"a1", "a@x", "A", Role.admin, true⟩], [], [], [], [], []⟩ (some "z9")
        (some "b@x") (some "B") "u8" true
      = (Response.userCreated "u8" "b@x" "B",
         ⟨[⟨"a1", "a@x", "A", Role.admin, true⟩], [], [], [], [], [⟨"u8", "b@x"⟩]⟩) ∧
    createUser ⟨[⟨"a1", "a@x", "A", Role.admin, true⟩], [], [], [], [], []⟩ (some "z9")
        (some "a@x") (some "B") "u8" true
      = (Response.jsonError 400 "User with this email already exists",
         ⟨[⟨"a1", "a@x", "A", Role.admin, true⟩], [], [], [], [], []⟩) :=
  ⟨(((create_user_ignores_caller ⟨[⟨"a1", "a@x", "A", Role.admin, true⟩], [], [], [], [], []⟩
        (some "z9") (some "z9") (some "b@x") (some "B") "u8" true).2 "b@x" "B" rfl rfl).2
        (by decide) rfl),
   (((create_user_ignores_caller ⟨[⟨"a1", "a@x", "A", Role.admin, true⟩], [], [], [], [], []⟩
        (some "z9") (some "z9") (some "a@x") (some "B") "u8" true).2 "a@x" "B" rfl rfl).1
        (by decide))⟩

/-- C3 counterexample: a successful execution of the multipart
upload-document handler creates the catalog row and reports success, yet
appends no AuditLogEntry at all — not the exactly-one the claim demands. -/
theorem upload_document_appends_no_audit_cex :
    (uploadDocument ⟨[⟨"a1", "a", "A", Role.admin, true⟩], [], [], [], [], []⟩ (some "a1")
        (some ⟨"f.txt", [7], 1, "text/plain"⟩) (some "f") none [] none none "r1" "nd1"
        true true true).1 = Response.jsonSuccess 200 "Document uploaded successfully" ∧
    (uploadDocument ⟨[⟨"a1", "a", "A", Role.admin, true⟩], [], [], [], [], []⟩ (some "a1")
        (some ⟨"f.txt", [7], 1, "text/plain"⟩) (some "f") none [] none none "r1" "nd1"
        true true true).2.documents.length = 1 ∧
    (uploadDocument ⟨[⟨"a1", "a", "A", Role.admin, true⟩], [], [], [], [], []⟩ (some "a1")
        (some ⟨"f.txt", [7], 1, "text/plain"⟩) (some "f") none [] none none "r1" "nd1"
        true true true).2.auditLogs = [] := by
  decide

/-- C3 (amended): each successful run of the download-document,
download-file-local, upload-file-local and delete-file-local handlers
whose audit insert succeeds appends exactly one AuditLogEntry with the
matching action tag and document id; the multipart upload-document
handler succeeds while appending none (the pre-signed-link download flow
remains the documented exception). -/
theorem one_audit_entry_per_handler_success
    (db : DB) (uid docId : String) (prof : Profile) (document : Document)
    (req : UploadRequest) (t : Nat) (nid : String) (ck removeOk : Bool)
    (file : FormFile) (name2 randomName nid2 : String)
    (descr : Option String) (tags : List String) (cat sub : Option String)
    (hp : findProfile db uid = some prof)
    (hd : findDocument db docId = some document)
    (ho : (findObject db document.filePath).isSome = true) :
    ((prof.role = Role.admin ∨ (findGrant db docId uid).isSome = true) →
        (downloadDocument db (some uid) (some docId) true).2.auditLogs
          = db.auditLogs ++ [⟨.download, docId, uid⟩]) ∧
    ((downloadFileLocal db (some uid) (some docId) true).2.auditLogs
        = db.auditLogs ++ [⟨.download, document.id, uid⟩]) ∧
    (prof.role = Role.admin →
        (uploadFileLocal db (some uid) req t nid true true ck true).2.auditLogs
          = db.auditLogs ++ [⟨.upload, nid, uid⟩]) ∧
    (prof.role = Role.admin →
        (deleteFileLocal db (some uid) (some docId) removeOk true true).2.auditLogs
          = db.auditLogs ++ [⟨.delete, document.id, uid⟩]) ∧
    (prof.role = Role.admin →
        (uploadDocument db (some uid) (some file) (some name2) descr tags cat sub
            randomName nid2 true true ck).1
          = Response.jsonSuccess 200 "Document uploaded successfully" ∧
        (uploadDocument db (some uid) (some file) (some name2) descr tags cat sub
            randomName nid2 true true ck).2.auditLogs = db.auditLogs) := by
  obtain ⟨obj, hobj⟩ := Option.isSome_iff_exists.mp ho
  refine ⟨?_, ?_, ?_, ?_, ?_⟩
  · rintro (hadmin | hgrant)
    · simp [downloadDocument, hd, hp, hadmin, hobj]
    · obtain ⟨g, hg⟩ := Option.isSome_iff_exists.mp hgrant
      cases hrole : prof.role <;> simp [downloadDocument, hd, hp, hrole, hg, hobj]
  · simp [downloadFileLocal, hd, hobj]
  · intro hadmin
    simp [uploadFileLocal, hp, hadmin]
  · intro hadmin
    cases removeOk <;> simp [deleteFileLocal, hp, hadmin, hd]
  · intro hadmin
    constructor <;> simp [uploadDocument, hp, hadmin]

/-- Witness for C3 (amended): at a concrete one-document state, the
admin download via download-document appends exactly the one download
entry. -/
theorem one_audit_entry_per_handler_success_witness :
    (downloadDocument ⟨[⟨"a1", "a", "A", Role.admin, true⟩],
        [⟨"d1", "doc", none, "p/d1", 1, "m", none, none, none, "a1"⟩], [], [],
        [⟨"p/d1", [9]⟩], []⟩ (some "a1") (some "d1") true).2.auditLogs
      = [⟨AuditAction.download, "d1", "a1"⟩] :=
  (one_audit_entry_per_handler_success ⟨[⟨"a1", "a", "A", Role.admin, true⟩],
      [⟨"d1", "doc", none, "p/d1", 1, "m", none, none, none, "a1"⟩], [], [],
      [⟨"p/d1", [9]⟩], []⟩ "a1" "d1" ⟨"a1", "a", "A", Role.admin, true⟩
      ⟨"d1", "doc", none, "p/d1", 1, "m", none, none, none, "a1"⟩
      ⟨"f", [1], 1, "m", none, none, none, none⟩ 0 "n" true true
      ⟨"g", [1], 1, "m"⟩ "g" "r" "n2" none [] none none
      (by decide) (by decide) (by decide)).1 (Or.inl rfl)

/-- C6 counterexample: an upload of 50 MB + 1 byte through the
upload-file-local handler is accepted — the blob is written and the
response is success — instead of being rejected before any blob write. -/
theorem server_upload_accepts_oversized_file_cex :
    52428801 > clientMaxFileSize ∧
    (uploadFileLocal ⟨[⟨"a1", "a", "A", Role.admin, true⟩], [], [], [], [], []⟩ (some "a1")
        ⟨"big.bin", [0], 52428801, "app/bin", none, none, none, none⟩
        7 "nd1" true true true true).1
      = Response.jsonSuccess 200 "File uploaded successfully" ∧
    (uploadFileLocal ⟨[⟨"a1", "a", "A", Role.admin, true⟩], [], [], [], [], []⟩ (some "a1")
        ⟨"big.bin", [0], 52428801, "app/bin", none, none, none, none⟩
        7 "nd1" true true true true).2.storage
      = [⟨"uncategorized/7_big.bin", [0]⟩] := by
  decide

/-- C6 (amended): only the client-side uploadFiles loop enforces the 50 MB
ceiling — an oversized file is skipped there before any blob write, with
no state change — while the server-side upload-file-local handler performs
no size check and succeeds for a request of any declared size. -/
theorem size_ceiling_client_side_only
    (db : DB) (uid : String) (prof : Profile) (req : UploadRequest) (t : Nat)
    (nid : String) (ck aud : Bool) (su folder name mime : String)
    (content : List Nat) (size : Nat) (sub desc : Option String)
    (tags : Option (List String)) (so dk : Bool)
    (hp : findProfile db uid = some prof) (hadmin : prof.role = Role.admin)
    (hbig : size > clientMaxFileSize) :
    processFile db su folder name content size mime sub desc tags t nid so dk ck aud
        = (db, false) ∧
    (uploadFileLocal db (some uid) req t nid true true ck aud).1
        = Response.jsonSuccess 200 "File uploaded successfully" := by
  constructor
  · simp [processFile, hbig]
  · simp [uploadFileLocal, hp, hadmin]

/-- Witness for C6 (amended): with a 50 MB + 1 file the client loop leaves
the state untouched while the server handler succeeds. -/
theorem size_ceiling_client_side_only_witness :
    processFile ⟨[⟨"a1", "a", "A", Role.admin, true⟩], [], [], [], [], []⟩ "a1" "f"
        "big.bin" [0] 52428801 "app/bin" none none none 7 "nd1" true true true true
      = (⟨[⟨"a1", "a", "A", Role.admin, true⟩], [], [], [], [], []⟩, false) ∧
    (uploadFileLocal ⟨[⟨"a1", "a", "A", Role.admin, true⟩], [], [], [], [], []⟩ (some "a1")
        ⟨"big.bin", [0], 52428801, "app/bin", none, none, none, none⟩
        7 "nd2" true true true true).1
      = Response.jsonSuccess 200 "File uploaded successfully" :=
  size_ceiling_client_side_only ⟨[⟨"a1", "a", "A", Role.admin, true⟩], [], [], [], [], []⟩
    "a1" ⟨"a1", "a", "A", Role.admin, true⟩
    ⟨"big.bin", [0], 52428801, "app/bin", none, none, none, none⟩ 7 "nd2" true true
    "a1" "f" "big.bin" "app/bin" [0] 52428801 none none none true true
    (by decide) rfl (by decide)

end Vault
